import Mathlib

/-!
Verification of the location-resolution and aggregation engine of the VaycayApp
weather pipeline (`dataAndUtils/legacy/utils`): the tiered city-matching
algorithm (`geocoding.py`), its checkpoint protocol, and the merge / pivot /
clean aggregation step (`data_processor.py`), together with the unique-location
extraction of `data_loader.py`.

Numbers are modelled as rationals.  Coordinates, populations, distances and
measurement values are `ℚ`; the Python `round(x, n)` decimal rounding is
modelled exactly (round half to even).  Pandas dataframes are modelled as lists
of typed rows; `pd.merge(..., how="left")` is a list-level left join; fatal
`ValueError`s are `Except.error`.  The haversine distance computation is
transcendental, so the distance function is a parameter of every definition
that uses it; everything downstream of the distances is modelled exactly.
-/

deriving instance DecidableEq for Except
namespace Vaycay

/-! ## Executable rational arithmetic

Batteries marks `Rat.add`, `Rat.sub`, `Rat.mul` and `Rat.inv` as irreducible,
which prevents kernel evaluation of concrete pipeline runs.  The following
equivalents compute through `mkRat` / `Rat.divInt` (which do reduce) and are
proved equal to the standard field operations, so general theorems can be
stated and proved with ordinary arithmetic while concrete instances evaluate
by `decide`. -/

/-- Executable addition on `ℚ`. -/
def qadd (a b : ℚ) : ℚ := mkRat (a.num * b.den + b.num * a.den) (a.den * b.den)

/-- Executable subtraction on `ℚ`. -/
def qsub (a b : ℚ) : ℚ := mkRat (a.num * b.den - b.num * a.den) (a.den * b.den)

/-- Executable multiplication on `ℚ`. -/
def qmul (a b : ℚ) : ℚ := mkRat (a.num * b.num) (a.den * b.den)

/-- Executable division on `ℚ` (zero when the divisor is zero, as in Lean). -/
def qdiv (a b : ℚ) : ℚ := Rat.divInt (a.num * b.den) (a.den * b.num)

/-- Executable sum of a list of rationals. -/
def qsum (l : List ℚ) : ℚ := l.foldr qadd 0

/-- Powers of ten as a structurally recursive natural, so that concrete
rounding computations reduce (Python rounds to `n` decimal places). -/
def pow10 : ℕ → ℕ
  | 0 => 1
  | n + 1 => 10 * pow10 n

/-- Python `round` to an integer: nearest integer, ties to the even one. -/
def pyRound (q : ℚ) : ℤ :=
  let f : ℤ := q.floor
  let frac : ℚ := qsub q (mkRat f 1)
  if frac < mkRat 1 2 then f
  else if mkRat 1 2 < frac then f + 1
  else if f % 2 = 0 then f else f + 1

/-- Python `round(q, n)`: round to `n` decimal places, ties to even. -/
def roundTo (n : ℕ) (q : ℚ) : ℚ :=
  Rat.divInt (pyRound (qmul q (mkRat (pow10 n) 1))) (pow10 n)

/-- Version marker for checkpoint compatibility (`config.MATCHING_VERSION`). -/
def MATCHING_VERSION : String := "v4_population_radius"

/-- Minimum population for major cities (`config.MIN_POPULATION`). -/
def MIN_POPULATION : ℚ := 100000

/-- Base radius for the primary search (`config.SEARCH_RADIUS_KM_PRIMARY`). -/
def SEARCH_RADIUS_KM_PRIMARY : ℚ := 20

/-- Base radius for the fallback search (`config.SEARCH_RADIUS_KM_FALLBACK`). -/
def SEARCH_RADIUS_KM_FALLBACK : ℚ := 30

/-- One row of the worldcities reference table
(columns `city, city_ascii, lat, long, country, iso2, iso3, admin_name,
capital, population, id`). -/
structure CityRow where
  city : String
  city_ascii : String
  lat : ℚ
  long : ℚ
  country : String
  iso2 : String
  iso3 : String
  admin_name : String
  capital : String
  population : Option ℚ
  id : String
deriving DecidableEq, Repr

/-- One geocoded record: the value part of a `geocoded_data` row
(everything except the `lat`/`long` key). -/
structure GeoRecord where
  city : String
  country : String
  state : String
  suburb : String
  city_ascii : String
  iso2 : String
  iso3 : String
  capital : String
  population : Option ℚ
  worldcities_id : String
  data_source : String
deriving DecidableEq, Repr

/-- The `df_cities` dataframe handed to the matcher: the reference rows plus
the scratch `distance` column that `match_station_to_major_city` assigns in
place (`none` when the column has never been written). -/
structure CityTable where
  rows : List CityRow
  distance : Option (List ℚ)
deriving DecidableEq, Repr

/-! ## Tier 4: geographic-region fallback (`get_geographic_region`) -/

/-- Coordinate rendering used inside the region `state` strings.  The Python
source formats the coordinate with an f-string; the exact text is irrelevant
to every property proved here, so the 2-decimal rendering is modelled as the
string of the 2-decimal rounded rational. -/
def fmt2 (q : ℚ) : String := toString (roundTo 2 q)

/-- Tier-4 fallback (`geocoding.get_geographic_region`): classify a coordinate
into polar caps, tropical ocean basins by longitude band, or generic remote
regions.  Total by construction, mirroring the Python control flow. -/
def get_geographic_region (lat long : ℚ) : GeoRecord :=
  if lat > Rat.divInt 665 10 then
    { city := "Arctic Region", country := "Polar"
      state := "Latitude: " ++ fmt2 lat ++ "°N", suburb := ""
      city_ascii := "Arctic Region", iso2 := "", iso3 := "", capital := ""
      population := none, worldcities_id := ""
      data_source := "geographic_region" }
  else if lat < -(Rat.divInt 665 10) then
    { city := "Antarctic Region", country := "Polar"
      state := "Latitude: " ++ fmt2 lat ++ "°S", suburb := ""
      city_ascii := "Antarctic Region", iso2 := "", iso3 := "", capital := ""
      population := none, worldcities_id := ""
      data_source := "geographic_region" }
  else
    let region :=
      if -30 < lat ∧ lat < 30 then
        if -90 < long ∧ long < -30 then "Atlantic Ocean"
        else if -30 < long ∧ long < 60 then "Indian Ocean"
        else if (60 < long ∧ long < 180) ∨ (-180 < long ∧ long < -90) then "Pacific Ocean"
        else "Remote Ocean"
      else if lat > 0 then "Remote Northern Region"
      else "Remote Southern Region"
    { city := region, country := "Remote Area"
      state := "Coordinates: " ++ fmt2 lat ++ "°, " ++ fmt2 long ++ "°", suburb := ""
      city_ascii := region, iso2 := "", iso3 := "", capital := ""
      population := none, worldcities_id := ""
      data_source := "geographic_region" }

/-! ## Tiers 1-2: worldcities matching (`match_station_to_major_city`) -/

/-- The vectorized haversine pass: one distance per candidate row.  The
haversine formula itself is transcendental, so the scalar distance function
`dist station_lat station_lon city_lat city_long` is a parameter. -/
def computeDistances (dist : ℚ → ℚ → ℚ → ℚ → ℚ) (station_lat station_lon : ℚ)
    (rows : List CityRow) : List ℚ :=
  rows.map (fun r => dist station_lat station_lon r.lat r.long)

/-- The sort key of `sort_values(["population", "distance"],
ascending=[False, True])`: population descending with null populations last,
then distance ascending. -/
def leRank (a b : CityRow × ℚ) : Bool :=
  match a.1.population, b.1.population with
  | some p, some q => if p = q then decide (a.2 ≤ b.2) else decide (q < p)
  | some _, none => true
  | none, some _ => false
  | none, none => decide (a.2 ≤ b.2)

/-- `leRank` as a decidable relation, for sorting. -/
def leRankP (a b : CityRow × ℚ) : Prop := leRank a b = true
instance : DecidableRel leRankP :=
  fun a b => inferInstanceAs (Decidable (leRank a b = true))

/-- The dict built from the winning candidate row (`match_station_to_major_city`
return value). -/
def cityDict (e : CityRow × ℚ) : GeoRecord :=
  { city := e.1.city, country := e.1.country, state := e.1.admin_name
    suburb := "", city_ascii := e.1.city_ascii, iso2 := e.1.iso2
    iso3 := e.1.iso3, capital := e.1.capital, population := e.1.population
    worldcities_id := e.1.id, data_source := "worldcities" }

/-- Python truthiness of the optional `station_country` argument
(`if station_country:` is false for both `None` and the empty string). -/
def strTruthy : Option String → Bool
  | some s => decide (s ≠ "")
  | none => false

/-- `geocoding.match_station_to_major_city`: assigns the scratch `distance`
column onto the shared table, optionally restricts to the station country
(falling back to all candidates when the restriction is empty), filters to the
primary then the fallback radius, sorts by population descending / distance
ascending and returns the top row.  Returns the match (or `none`) together
with the table as it is left after the call. -/
def match_station_to_major_city (dist : ℚ → ℚ → ℚ → ℚ → ℚ)
    (station_lat station_lon : ℚ) (df_cities : CityTable)
    (primary_radius_km fallback_radius_km : ℚ)
    (station_country : Option String) : Option GeoRecord × CityTable :=
  let ds := computeDistances dist station_lat station_lon df_cities.rows
  let table2 : CityTable := { df_cities with distance := some ds }
  let tagged := df_cities.rows.zip ds
  let df_candidates :=
    if strTruthy station_country then
      let f := tagged.filter (fun e => decide (e.1.country = station_country.getD ""))
      if f.isEmpty then tagged else f
    else tagged
  let nearby0 := df_candidates.filter (fun e => decide (e.2 ≤ primary_radius_km))
  let nearby :=
    if nearby0.isEmpty then
      df_candidates.filter (fun e => decide (e.2 ≤ fallback_radius_km))
    else nearby0
  (((List.insertionSort leRankP nearby).head?).map cityDict, table2)

/-! ## Tier 3: Nominatim fallback (`safe_reverse` and the extractors) -/

/-- The address part of a raw Nominatim response; every field is optional,
matching `dict.get` on the Python side. -/
structure Address where
  city : Option String
  town : Option String
  village : Option String
  state : Option String
  county : Option String
  country : Option String
  country_code : Option String
  suburb : Option String
  municipality : Option String
deriving DecidableEq, Repr

/-- Result of `safe_reverse`: `none` models the empty dict `{}` returned when
the geocoder yields nothing or every retry failed with an exception. -/
def NominatimOracle : Type := ℚ → ℚ → Option Address

/-- `extract_city`: `address.get("city", address.get("town", address.get("village", "")))`. -/
def extract_city : Option Address → String
  | some a => a.city.getD (a.town.getD (a.village.getD ""))
  | none => ""

/-- `extract_state`: state, then county, then empty. -/
def extract_state : Option Address → String
  | some a => a.state.getD (a.county.getD "")
  | none => ""

/-- `extract_country`. -/
def extract_country : Option Address → String
  | some a => a.country.getD ""
  | none => ""

/-- `extract_country_code`: upper-cased iso2. -/
def extract_country_code : Option Address → String
  | some a => (a.country_code.getD "").toUpper
  | none => ""

/-- `extract_suburb`: suburb, then municipality, then empty. -/
def extract_suburb : Option Address → String
  | some a => a.suburb.getD (a.municipality.getD "")
  | none => ""

/-! ## The per-location cascading fallback (body of the batch loop in
`reverse_geocode_locations`) -/

/-- One location resolution with its tier count: tier 1 major cities, tier 2
all cities (re-tagged `worldcities_small`), tier 3 Nominatim (accepted only
when a city name was extracted), tier 4 geographic region.  The returned
number counts the tiers attempted, so a checkpoint-resumed location that is
never passed to this function contributes zero tier calls. -/
def resolveLocationT (dist : ℚ → ℚ → ℚ → ℚ → ℚ) (nominatim : NominatimOracle)
    (df_major_cities df_all_cities : List CityRow)
    (primary_radius_km fallback_radius_km : ℚ) (lat long : ℚ) : GeoRecord × ℕ :=
  match (match_station_to_major_city dist lat long ⟨df_major_cities, none⟩
      primary_radius_km fallback_radius_km none).1 with
  | some r => (r, 1)
  | none =>
    match (match_station_to_major_city dist lat long ⟨df_all_cities, none⟩
        primary_radius_km fallback_radius_km none).1 with
    | some r => ({ r with data_source := "worldcities_small" }, 2)
    | none =>
      let location := nominatim lat long
      let city := extract_city location
      if city ≠ "" then
        ({ city := city, country := extract_country location
           state := extract_state location, suburb := extract_suburb location
           city_ascii := "", iso2 := extract_country_code location, iso3 := ""
           capital := "", population := none, worldcities_id := ""
           data_source := "nominatim" }, 3)
      else (get_geographic_region lat long, 4)

/-- The resolved record alone. -/
def resolveLocation (dist : ℚ → ℚ → ℚ → ℚ → ℚ) (nominatim : NominatimOracle)
    (df_major_cities df_all_cities : List CityRow)
    (primary_radius_km fallback_radius_km : ℚ) (lat long : ℚ) : GeoRecord :=
  (resolveLocationT dist nominatim df_major_cities df_all_cities
    primary_radius_km fallback_radius_km lat long).1

/-! ## Checkpoint store (`load_geocoding_progress`, `save_geocoding_checkpoint`) -/

/-- A unique station location: the `(lat, long)` join key. -/
structure Loc where
  lat : ℚ
  long : ℚ
deriving DecidableEq, Repr

/-- One row of the persisted `geocoding_checkpoint.csv` (and equally of the
in-memory `geocoded_data` / `unique_locs`-with-results tables): the coordinate
key plus the geocoded record. -/
structure GeocodedRow where
  lat : ℚ
  long : ℚ
  record : GeoRecord
deriving DecidableEq, Repr

/-- The metadata envelope persisted in `geocoding_progress.json`; only the
version tag matters to control flow.  `none` models a JSON file without the
`matching_version` key, which `dict.get` defaults to `"v1_nominatim"`. -/
structure ProgressInfo where
  matching_version : Option String
deriving DecidableEq, Repr

/-- The on-disk checkpoint state: the checkpoint CSV and the progress JSON,
each possibly absent. -/
structure CheckpointFS where
  checkpoint : Option (List GeocodedRow)
  progress : Option ProgressInfo
deriving DecidableEq, Repr

/-- `geocoding.load_geocoding_progress`: returns the checkpoint rows, or
`none` when no checkpoint file exists, or when the progress metadata exists
and its (defaulted) version tag differs from `MATCHING_VERSION`. -/
def load_geocoding_progress (fs : CheckpointFS) : Option (List GeocodedRow) :=
  match fs.checkpoint with
  | none => none
  | some df_existing =>
    match fs.progress with
    | some progress_info =>
      let checkpoint_version := progress_info.matching_version.getD "v1_nominatim"
      if checkpoint_version ≠ MATCHING_VERSION then none else some df_existing
    | none => some df_existing

/-! ## Left join (`pd.merge(..., how="left")`) -/

/-- Left join on an exact key: every left row is paired with every right row
whose key matches (fan-out on duplicate right keys, as in pandas), or with
`none` when no right row matches. -/
def leftJoinBy {α β : Type} (key : α → ℚ × ℚ) (keyb : β → ℚ × ℚ)
    (left : List α) (right : List β) : List (α × Option β) :=
  left.flatMap (fun l =>
    let ms := right.filter (fun r => decide (keyb r = key l))
    if ms.isEmpty then [(l, none)] else ms.map (fun r => (l, some r)))

/-! ## The resolution pipeline (`reverse_geocode_locations`) -/

/-- Rounding applied to the checkpoint coordinates before the resume merge
(source comment: `4 decimals = ~11m precision`). -/
def roundCheckpointCoords (ck : List GeocodedRow) : List GeocodedRow :=
  ck.map (fun r => { r with lat := roundTo 4 r.lat, long := roundTo 4 r.long })

/-- Outcome of a pipeline run: the final geocoded table, the number of tier
attempts made by the cascading fallback, and the number of checkpoint saves
performed. -/
structure GeocodeRun where
  results : List (Loc × GeoRecord)
  tier_calls : ℕ
  checkpoint_saves : ℕ
deriving DecidableEq, Repr

/-- The batch loop of `reverse_geocode_locations`: locations still needing
geocoding are resolved in order through the cascading fallback; each batch of
100 appends its results and saves one checkpoint, so the final table is
`already_geocoded` followed by the new results and the number of saves is the
number of batches. -/
def runGeocodingBatches (dist : ℚ → ℚ → ℚ → ℚ → ℚ) (nominatim : NominatimOracle)
    (df_major_cities df_all_cities : List CityRow)
    (primary_radius_km fallback_radius_km : ℚ)
    (needs_geocoding : List Loc) (already_geocoded : List (Loc × GeoRecord)) :
    GeocodeRun :=
  let resolved := needs_geocoding.map (fun l =>
    (l, resolveLocationT dist nominatim df_major_cities df_all_cities
      primary_radius_km fallback_radius_km l.lat l.long))
  { results := already_geocoded ++ resolved.map (fun x => (x.1, x.2.1))
    tier_calls := (resolved.map (fun x => x.2.2)).sum
    checkpoint_saves := (needs_geocoding.length + 99) / 100 }

/-- `geocoding.reverse_geocode_locations`: load the checkpoint; on resume,
round the checkpoint coordinates to 4 decimals, left-join the requested
locations against it, abort with a `ValueError` when the join changed the row
count, split into already-geocoded and still-needed locations and return
early (no tier calls, no saves) when nothing remains; otherwise run the
batch loop over the remainder. -/
def reverse_geocode_locations (dist : ℚ → ℚ → ℚ → ℚ → ℚ)
    (nominatim : NominatimOracle) (df_major_cities df_all_cities : List CityRow)
    (primary_radius_km fallback_radius_km : ℚ)
    (fs : CheckpointFS) (unique_locs : List Loc) : Except String GeocodeRun :=
  match load_geocoding_progress fs with
  | some existing_geocoded =>
    let existing4 := roundCheckpointCoords existing_geocoded
    let joined := leftJoinBy (fun l : Loc => (l.lat, l.long))
      (fun r : GeocodedRow => (r.lat, r.long)) unique_locs existing4
    if joined.length ≠ unique_locs.length then
      Except.error ("Merge operation changed row count - potential data loss detected")
    else
      let needs_geocoding := (joined.filter (fun x => x.2.isNone)).map (fun x => x.1)
      let already_geocoded := joined.filterMap (fun x => x.2.map (fun r => (x.1, r.record)))
      if needs_geocoding.isEmpty then Except.ok ⟨already_geocoded, 0, 0⟩
      else Except.ok (runGeocodingBatches dist nominatim df_major_cities df_all_cities
        primary_radius_km fallback_radius_km needs_geocoding already_geocoded)
  | none =>
    Except.ok (runGeocodingBatches dist nominatim df_major_cities df_all_cities
      primary_radius_km fallback_radius_km unique_locs [])

/-! ## Unique-location extraction (`data_loader.get_unique_locations`) -/

/-- Keep-first duplicate removal on a key, mirroring
`drop_duplicates(subset=..., keep="first")`: a row is kept exactly when its
key has not been seen on an earlier row. -/
def dropDuplicatesByAux {α κ : Type} [DecidableEq κ] (key : α → κ)
    (seen : List κ) : List α → List α
  | [] => []
  | r :: rest =>
    if key r ∈ seen then dropDuplicatesByAux key seen rest
    else r :: dropDuplicatesByAux key (key r :: seen) rest

/-- `drop_duplicates(subset=..., keep="first")`. -/
def dropDuplicatesBy {α κ : Type} [DecidableEq κ] (key : α → κ)
    (l : List α) : List α :=
  dropDuplicatesByAux key [] l

/-- One raw weather measurement row (`df_weather`): columns
`id, date, data_type, lat, long, name, value`. -/
structure WeatherRow where
  id : String
  date : String
  data_type : String
  lat : ℚ
  long : ℚ
  name : String
  value : ℚ
deriving DecidableEq, Repr

/-- `data_loader.get_unique_locations`: drop coordinates outside the valid
ranges, take the distinct `(lat, long)` pairs, round to 3 decimals and
deduplicate again. -/
def get_unique_locations (df_weather : List WeatherRow) : List Loc :=
  let valid := df_weather.filter (fun r =>
    decide (-90 ≤ r.lat ∧ r.lat ≤ 90 ∧ -180 ≤ r.long ∧ r.long ≤ 180))
  let unique0 := dropDuplicatesBy (fun l : Loc => (l.lat, l.long))
    (valid.map (fun r => Loc.mk r.lat r.long))
  dropDuplicatesBy (fun l : Loc => (l.lat, l.long))
    (unique0.map (fun l => Loc.mk (roundTo 3 l.lat) (roundTo 3 l.long)))

/-! ## Enrichment merge (`data_processor.merge_with_original`) -/

/-- `data_processor.merge_with_original`: round the weather coordinates to 3
decimals, drop duplicate `(lat, long)` keys from the geocoded table keeping
the first occurrence, left-join, and abort with a `ValueError` when the join
changed the row count. -/
def merge_with_original (df_weather : List WeatherRow)
    (unique_locs : List GeocodedRow) :
    Except String (List (WeatherRow × Option GeoRecord)) :=
  let w := df_weather.map (fun r =>
    { r with lat := roundTo 3 r.lat, long := roundTo 3 r.long })
  let merge_data := dropDuplicatesBy (fun r : GeocodedRow => (r.lat, r.long)) unique_locs
  let df_enriched := (leftJoinBy (fun r : WeatherRow => (r.lat, r.long))
      (fun r : GeocodedRow => (r.lat, r.long)) w merge_data).map
    (fun x => (x.1, x.2.map (fun r => r.record)))
  if df_enriched.length ≠ df_weather.length then
    Except.error ("Merge operation changed row count - potential data loss or duplication detected")
  else Except.ok df_enriched

/-! ## Pivot with mean aggregation (`data_processor.pivot_and_clean_data`) -/

/-- One row of the enriched table fed to the pivot: the weather measurement
together with its location columns. -/
structure EnrichedRow where
  city : String
  country : String
  state : String
  suburb : String
  date : String
  city_ascii : String
  iso2 : String
  iso3 : String
  capital : String
  worldcities_id : String
  data_source : String
  name : String
  lat : ℚ
  long : ℚ
  population : Option ℚ
  data_type : String
  value : ℚ
deriving DecidableEq, Repr

/-- The pivot index key: `base_index + additional_index` from the source —
`city, country, state, suburb, date` plus the metadata columns
`city_ascii, iso2, iso3, capital, worldcities_id, data_source`
(station `name` and coordinates deliberately excluded). -/
structure PivotKey where
  city : String
  country : String
  state : String
  suburb : String
  date : String
  city_ascii : String
  iso2 : String
  iso3 : String
  capital : String
  worldcities_id : String
  data_source : String
deriving DecidableEq, Repr

/-- The pivot index key of a row. -/
def pivotKeyOf (r : EnrichedRow) : PivotKey :=
  { city := r.city, country := r.country, state := r.state, suburb := r.suburb
    date := r.date, city_ascii := r.city_ascii, iso2 := r.iso2, iso3 := r.iso3
    capital := r.capital, worldcities_id := r.worldcities_id
    data_source := r.data_source }

/-- The values contributing to one `(index key, data_type)` cell of the
pivot. -/
def pivotGroupValues (df : List EnrichedRow) (k : PivotKey) (t : String) : List ℚ :=
  (df.filter (fun r => decide (pivotKeyOf r = k ∧ r.data_type = t))).map
    (fun r => r.value)

/-- Arithmetic mean; `none` on the empty list (pandas leaves the cell NaN). -/
def mean (vs : List ℚ) : Option ℚ :=
  if vs.isEmpty then none else some (qdiv (qsum vs) (mkRat vs.length 1))

/-- One cell of `pivot_table(index=index_cols, columns="data_type",
values="value", aggfunc="mean")`. -/
def pivot_table_value (df : List EnrichedRow) (k : PivotKey) (t : String) :
    Option ℚ :=
  mean (pivotGroupValues df k t)

/-- The distinct index keys of the pivot output. -/
def pivotKeys (df : List EnrichedRow) : List PivotKey :=
  dropDuplicatesBy (fun k : PivotKey => k) (df.map pivotKeyOf)

/-! ## Post-pivot cleaning: TAVG imputation (`pivot_and_clean_data`) -/

/-- One row of the pivoted table, restricted to the temperature columns the
imputation step reads and writes.  A field is `none` when the cell is NaN;
whether a column exists at all is tracked separately on `PivotDF`. -/
structure PivotRow where
  tavg : Option ℚ
  tmax : Option ℚ
  tmin : Option ℚ
deriving DecidableEq, Repr

/-- The pivoted dataframe together with column presence: `pivot_table` only
creates a column for a `data_type` that occurs in the input, and the source
guards the imputation with `"TAVG" in df_pivot.columns` etc.  When a column
flag is false every corresponding cell is absent. -/
structure PivotDF where
  rows : List PivotRow
  hasTAVG : Bool
  hasTMAX : Bool
  hasTMIN : Bool
deriving DecidableEq, Repr

/-- The TAVG imputation step of `pivot_and_clean_data`: when the TAVG column
exists and both TMAX and TMIN exist, every row with a missing TAVG gets
`TAVG = TMIN + 0.44 * (TMAX - TMIN)` (NaN-propagating, as in pandas); rows
with a present TAVG are untouched.  When any of the three columns is absent
nothing happens. -/
def fill_missing_tavg (df : PivotDF) : PivotDF :=
  if df.hasTAVG then
    if df.hasTMAX && df.hasTMIN then
      { df with rows := df.rows.map (fun r =>
          if r.tavg.isNone then
            { r with tavg :=
                match r.tmin, r.tmax with
                | some mn, some mx =>
                  some (qadd mn (qmul (Rat.divInt 44 100) (qsub mx mn)))
                | _, _ => none }
          else r) }
    else df
  else df

/-! ## The grouping named by the specification

The spec describes the aggregation as grouping by
`(city, country, state, suburb, date)`; the source groups by that key plus the
metadata columns.  The following definitions follow the wording of the spec
and exist only to compare the two groupings. -/

/-- The aggregation key as the specification states it. -/
structure ClaimGroupKey where
  city : String
  country : String
  state : String
  suburb : String
  date : String
deriving DecidableEq, Repr

/-- The spec-side grouping key of a row. -/
def claimKeyOf (r : EnrichedRow) : ClaimGroupKey :=
  { city := r.city, country := r.country, state := r.state, suburb := r.suburb
    date := r.date }

/-- Mean aggregation over the spec-side
`(city, country, state, suburb, date, data_type)` grouping. -/
def claim_pivot_value (df : List EnrichedRow) (k : ClaimGroupKey) (t : String) :
    Option ℚ :=
  mean ((df.filter (fun r => decide (claimKeyOf r = k ∧ r.data_type = t))).map
    (fun r => r.value))

/-! ## Concrete example data for witnesses and counterexamples -/

/-- Example distance oracle: 15 km to a city at latitude 1, 5 km otherwise. -/
def exDist : ℚ → ℚ → ℚ → ℚ → ℚ := fun _ _ clat _ => if clat = 1 then 15 else 5

/-- Example major city: population 2,000,000, 15 km away under `exDist`. -/
def exCityA : CityRow :=
  ⟨"Metropolis", "Metropolis", 1, 0, "X", "XX", "XXX", "MetroState", "",
    some 2000000, "A1"⟩

/-- Example small city: population 50,000, 5 km away under `exDist`. -/
def exCityB : CityRow :=
  ⟨"Smallville", "Smallville", 2, 0, "X", "XX", "XXX", "SmallState", "",
    some 50000, "B1"⟩

/-- Example geocoded record. -/
def exRecord : GeoRecord :=
  ⟨"Springfield", "X", "S", "", "Springfield", "XX", "XXX", "",
    some 30000, "W1", "worldcities"⟩

/-- A Nominatim oracle that always fails (empty responses). -/
def exNominatim : NominatimOracle := fun _ _ => none

/-- A checkpoint row whose coordinates are exact at 3 and 4 decimals. -/
def exCkRow : GeocodedRow := ⟨Rat.divInt 3 2, Rat.divInt 5 2, exRecord⟩

/-- A checkpoint row whose latitude carries 4 decimal places (1.2344). -/
def exCkRow4 : GeocodedRow := ⟨Rat.divInt 12344 10000, 0, exRecord⟩

/-- The 3-decimal rounding of the key of `exCkRow4` as a location (1.234). -/
def exLoc9 : Loc := ⟨Rat.divInt 1234 1000, 0⟩

/-- A checkpoint state matching the running algorithm version. -/
def exFS : CheckpointFS := ⟨some [exCkRow], some ⟨some "v4_population_radius"⟩⟩

/-- A checkpoint state produced under the old algorithm version. -/
def exFSstale : CheckpointFS := ⟨some [exCkRow], some ⟨some "v1_nominatim"⟩⟩

/-- A weather measurement row keyed at `(1.5, 2.5)`. -/
def exWeatherRow : WeatherRow :=
  ⟨"S1", "2020-01-01", "TMAX", Rat.divInt 3 2, Rat.divInt 5 2, "STATION", 293⟩

/-- Enriched row: station A reports TMAX 10, resolved via worldcities. -/
def exPivotRow1 : EnrichedRow :=
  ⟨"Springfield", "X", "S", "", "2020-01-01", "Springfield", "XX", "XXX", "",
    "W1", "worldcities", "STATION A", 1, 2, some 30000, "TMAX", 10⟩

/-- Enriched row: station B reports TMAX 20 for the same city-date, but its
location was resolved via Nominatim, so its metadata columns differ. -/
def exPivotRow2 : EnrichedRow :=
  ⟨"Springfield", "X", "S", "", "2020-01-01", "Springfield", "XX", "XXX", "",
    "W1", "nominatim", "STATION B", 1, 2, some 30000, "TMAX", 20⟩

/-- The mixed-metadata enriched table for the grouping counterexample. -/
def exPivotDF : List EnrichedRow := [exPivotRow1, exPivotRow2]

/-- Station B with metadata identical to station A. -/
def exPivotRow2u : EnrichedRow := { exPivotRow2 with data_source := "worldcities" }

/-- Station A also reports SNWD 5. -/
def exPivotRow3 : EnrichedRow := { exPivotRow1 with data_type := "SNWD", value := 5 }

/-- A uniform-metadata enriched table: TMAX from two stations, SNWD from one. -/
def exPivotDF2 : List EnrichedRow := [exPivotRow1, exPivotRow2u, exPivotRow3]

/-- Pivoted rows with the TAVG column present: the first row misses its TAVG
value, the second has one. -/
def exPivotDF6 : PivotDF :=
  ⟨[⟨none, some 20, some 10⟩, ⟨some 7, some 30, some 20⟩], true, true, true⟩

/-- The pivoted table of a run where no station reported TAVG at all: the
TAVG column does not exist, while TMAX and TMIN do. -/
def exPivotDF6b : PivotDF := ⟨[⟨none, some 20, some 10⟩], false, true, true⟩

/-! ## Arithmetic bridge lemmas -/

theorem qadd_eq (a b : ℚ) : qadd a b = a + b := (Rat.add_def' a b).symm
theorem qsub_eq (a b : ℚ) : qsub a b = a - b := (Rat.sub_def' a b).symm
theorem qmul_eq (a b : ℚ) : qmul a b = a * b := by
  rw [qmul, Rat.mul_def, Rat.normalize_eq_mkRat]
theorem qdiv_eq (a b : ℚ) : qdiv a b = a / b := by
  rcases eq_or_ne b 0 with rfl | hb
  · simp [qdiv]
  · have hbn : b.num ≠ 0 := Rat.num_ne_zero.mpr hb
    have had : (a.den : ℤ) ≠ 0 := Int.natCast_ne_zero.mpr a.den_nz
    rw [qdiv, Rat.div_def, Rat.inv_def]
    conv_rhs => rw [← Rat.divInt_self a]
    rw [Rat.divInt_mul_divInt _ _ had hbn]
theorem qsum_eq (l : List ℚ) : qsum l = l.sum := by
  induction l with
  | nil => rfl
  | cons a t ih =>
      rw [qsum, List.foldr, qadd_eq, List.sum_cons]
      rw [qsum] at ih
      rw [ih]

/-! ## Rounding lemmas -/

theorem pow10_pos (n : ℕ) : 0 < pow10 n := by
  induction n with
  | zero => simp [pow10]
  | succ n ih => exact Nat.mul_pos (by norm_num) ih
theorem mkRat_one (z : ℤ) : mkRat z 1 = (z : ℚ) := by
  rw [← Rat.divInt_ofNat]
  simp
theorem pyRound_intCast (z : ℤ) : pyRound ((z : ℚ)) = z := by
  have hfl : ((z : ℚ)).floor = z := by
    rw [Rat.floor_def']
    simp
  have hfrac : qsub (z : ℚ) (mkRat z 1) = 0 := by
    rw [qsub_eq, mkRat_one]
    simp
  rw [pyRound, hfl, hfrac]
  norm_num [mkRat_one]
theorem roundTo_roundTo (n : ℕ) (q : ℚ) : roundTo n (roundTo n q) = roundTo n q := by
  set z : ℤ := pyRound (qmul q (mkRat (pow10 n) 1)) with hz
  have hp : ((pow10 n : ℕ) : ℚ) ≠ 0 := by
    have h0 : (0 : ℚ) < ((pow10 n : ℕ) : ℚ) := by exact_mod_cast pow10_pos n
    exact ne_of_gt h0
  have harg : qmul (roundTo n q) (mkRat (pow10 n) 1) = (z : ℚ) := by
    rw [qmul_eq, mkRat_one, roundTo, ← hz, Rat.divInt_eq_div]
    push_cast
    field_simp
  rw [roundTo, harg, pyRound_intCast, roundTo, ← hz]

/-! ## List infrastructure lemmas -/

theorem find?_eq_head?_filter {α : Type} (p : α → Bool) (l : List α) :
    l.find? p = (l.filter p).head? := by
  induction l with
  | nil => rfl
  | cons a t ih =>
    by_cases h : p a
    · simp [List.find?_cons_of_pos _ h, List.filter_cons_of_pos h]
    · simp only [List.find?_cons_of_neg _ h, List.filter_cons_of_neg h]
      exact ih
theorem mem_dropDuplicatesByAux {α κ : Type} [DecidableEq κ] (key : α → κ)
    (l : List α) : ∀ (seen : List κ) (x : α),
      x ∈ dropDuplicatesByAux key seen l → x ∈ l ∧ key x ∉ seen := by
  induction l with
  | nil => intro seen x hx; simp [dropDuplicatesByAux] at hx
  | cons r rest ih =>
    intro seen x hx
    by_cases h : key r ∈ seen
    · rw [dropDuplicatesByAux, if_pos h] at hx
      rcases ih seen x hx with ⟨h1, h2⟩
      exact ⟨List.mem_cons_of_mem _ h1, h2⟩
    · rw [dropDuplicatesByAux, if_neg h] at hx
      rcases List.mem_cons.mp hx with rfl | hx2
      · exact ⟨List.mem_cons_self _ _, h⟩
      · rcases ih _ x hx2 with ⟨h1, h2⟩
        exact ⟨List.mem_cons_of_mem _ h1,
          fun hc => h2 (List.mem_cons_of_mem _ hc)⟩
theorem find?_dropDuplicatesByAux {α κ : Type} [DecidableEq κ] (key : α → κ)
    (k : κ) (l : List α) : ∀ (seen : List κ), k ∉ seen →
      (dropDuplicatesByAux key seen l).find? (fun x => decide (key x = k)) =
        l.find? (fun x => decide (key x = k)) := by
  induction l with
  | nil => intro seen _; rfl
  | cons r rest ih =>
    intro seen hk
    by_cases hs : key r ∈ seen
    · have hne : ¬ (key r = k) := fun he => hk (he ▸ hs)
      rw [dropDuplicatesByAux, if_pos hs, ih seen hk,
        List.find?_cons_of_neg _ (by simpa using hne)]
    · by_cases he : key r = k
      · rw [dropDuplicatesByAux, if_neg hs,
          List.find?_cons_of_pos _ (by simpa using he),
          List.find?_cons_of_pos _ (by simpa using he)]
      · have hk2 : k ∉ key r :: seen := by
          simp only [List.mem_cons]
          push_neg
          exact ⟨fun hc => he hc.symm, hk⟩
        rw [dropDuplicatesByAux, if_neg hs,
          List.find?_cons_of_neg _ (by simpa using he),
          List.find?_cons_of_neg _ (by simpa using he), ih _ hk2]
theorem filter_dropDuplicatesByAux_length {α κ : Type} [DecidableEq κ]
    (key : α → κ) (k : κ) (l : List α) : ∀ (seen : List κ),
      ((dropDuplicatesByAux key seen l).filter
        (fun x => decide (key x = k))).length ≤ 1 := by
  induction l with
  | nil => intro seen; simp [dropDuplicatesByAux]
  | cons r rest ih =>
    intro seen
    by_cases hs : key r ∈ seen
    · rw [dropDuplicatesByAux, if_pos hs]
      exact ih seen
    · by_cases he : key r = k
      · have hnil : (dropDuplicatesByAux key (key r :: seen) rest).filter
            (fun x => decide (key x = k)) = [] := by
          rw [List.filter_eq_nil_iff]
          intro x hx
          rcases mem_dropDuplicatesByAux key rest _ x hx with ⟨_, h2⟩
          simp only [decide_eq_true_eq]
          intro hc
          exact h2 (by rw [hc, he]; exact List.mem_cons_self _ _)
        rw [dropDuplicatesByAux, if_neg hs,
          List.filter_cons_of_pos (by simpa using he), hnil]
        simp
      · rw [dropDuplicatesByAux, if_neg hs,
          List.filter_cons_of_neg (by simpa using he)]
        exact ih _
theorem filter_dropDuplicatesBy_length {α κ : Type} [DecidableEq κ]
    (key : α → κ) (k : κ) (l : List α) :
    ((dropDuplicatesBy key l).filter (fun x => decide (key x = k))).length ≤ 1 :=
  filter_dropDuplicatesByAux_length key k l []
theorem find?_dropDuplicatesBy {α κ : Type} [DecidableEq κ] (key : α → κ)
    (k : κ) (l : List α) :
    (dropDuplicatesBy key l).find? (fun x => decide (key x = k)) =
      l.find? (fun x => decide (key x = k)) :=
  find?_dropDuplicatesByAux key k l [] (List.not_mem_nil k)
theorem leftJoinBy_eq_map_find {α β : Type} (key : α → ℚ × ℚ)
    (keyb : β → ℚ × ℚ) (left : List α) (right : List β)
    (h : ∀ l ∈ left,
      ((right.filter (fun r => decide (keyb r = key l)))).length ≤ 1) :
    leftJoinBy key keyb left right =
      left.map (fun l => (l, right.find? (fun r => decide (keyb r = key l)))) := by
  induction left with
  | nil => rfl
  | cons a t ih =>
    have ha := h a (List.mem_cons_self _ _)
    have ht := fun l hl => h l (List.mem_cons_of_mem _ hl)
    rw [leftJoinBy, List.flatMap_cons, ← leftJoinBy, ih ht, List.map_cons]
    rw [find?_eq_head?_filter]
    rcases hms : right.filter (fun r => decide (keyb r = key a)) with _ | ⟨x, ms2⟩
    · simp
    · have : ms2 = [] := by
        rw [hms, List.length_cons] at ha
        exact List.length_eq_zero.mp (by omega)
      subst this
      simp

/-! ## Order properties of the candidate ranking -/

theorem leRank_total (a b : CityRow × ℚ) : leRank a b = true ∨ leRank b a = true := by
  unfold leRank
  rcases a.1.population with _ | p <;> rcases b.1.population with _ | q <;> dsimp only
  · simpa using le_total a.2 b.2
  · simp
  · simp
  · by_cases h : p = q
    · subst h
      simpa using le_total a.2 b.2
    · rw [if_neg h, if_neg (Ne.symm h)]
      simpa using (lt_or_gt_of_ne h).symm

theorem leRank_trans (a b c : CityRow × ℚ) :
    leRank a b = true → leRank b c = true → leRank a c = true := by
  unfold leRank
  rcases a.1.population with _ | p <;> rcases b.1.population with _ | q <;>
    rcases c.1.population with _ | r <;> dsimp only
  · simpa using le_trans
  · simp
  · simp
  · simp
  · simp
  · simp
  · simp
  · intro h1 h2
    by_cases e1 : p = q <;> by_cases e2 : q = r
    · subst e1; subst e2
      rw [if_pos rfl] at h1 h2 ⊢
      simp only [decide_eq_true_eq] at h1 h2 ⊢
      exact le_trans h1 h2
    · subst e1
      rw [if_neg e2] at h2
      simp only [decide_eq_true_eq] at h2
      have hpr : ¬ p = r := fun hc => absurd (hc ▸ h2) (lt_irrefl p)
      rw [if_neg hpr]
      simpa using h2
    · subst e2
      rw [if_neg e1] at h1
      simp only [decide_eq_true_eq] at h1
      rw [if_neg e1]
      simpa using h1
    · rw [if_neg e1] at h1
      rw [if_neg e2] at h2
      simp only [decide_eq_true_eq] at h1 h2
      have hlt : r < p := lt_trans h2 h1
      have hpr : ¬ p = r := fun hc => absurd (hc ▸ hlt) (lt_irrefl p)
      rw [if_neg hpr]
      simpa using hlt

/-- When one in-radius candidate strictly outranks every other, any
comparator-consistent sort puts it first. -/
theorem head?_insertionSort_best (l : List (CityRow × ℚ)) (A : CityRow × ℚ)
    (hA : A ∈ l) (hbest : ∀ e ∈ l, e ≠ A → leRank e A = false) :
    (List.insertionSort leRankP l).head? = some A := by
  haveI : IsTotal (CityRow × ℚ) leRankP := ⟨fun a b => leRank_total a b⟩
  haveI : IsTrans (CityRow × ℚ) leRankP := ⟨fun a b c => leRank_trans a b c⟩
  have hperm := List.perm_insertionSort leRankP l
  have hsorted := List.sorted_insertionSort leRankP l
  rcases hs : List.insertionSort leRankP l with _ | ⟨h, t⟩
  · exfalso
    have hmm : A ∈ List.insertionSort leRankP l := hperm.mem_iff.mpr hA
    rw [hs] at hmm
    exact List.not_mem_nil A hmm
  · have hmem : h ∈ l := hperm.mem_iff.mp (by rw [hs]; exact List.mem_cons_self _ _)
    by_cases he : h = A
    · rw [he]
      rfl
    · exfalso
      have hAin : A ∈ h :: t := by rw [← hs]; exact hperm.mem_iff.mpr hA
      rcases List.mem_cons.mp hAin with heq | hAt
      · exact he heq.symm
      · rw [hs] at hsorted
        have hle : leRankP h A := (List.sorted_cons.mp hsorted).1 A hAt
        have hle2 : leRank h A = true := hle
        rw [hbest h hmem he] at hle2
        exact Bool.false_ne_true hle2

/-! ## Shape lemmas for the matcher -/

/-- A successful worldcities match is always tagged `worldcities`. -/
theorem match_station_data_source (dist : ℚ → ℚ → ℚ → ℚ → ℚ)
    (slat slon : ℚ) (tbl : CityTable) (p f : ℚ) (c : Option String)
    (r : GeoRecord)
    (h : (match_station_to_major_city dist slat slon tbl p f c).1 = some r) :
    r.data_source = "worldcities" := by
  unfold match_station_to_major_city at h
  simp only [Option.map_eq_some'] at h
  rcases h with ⟨e, _, hc⟩
  rw [← hc]
  rfl

/-- The matcher always hands back the table with the freshly computed
distance column written onto it. -/
theorem match_station_table (dist : ℚ → ℚ → ℚ → ℚ → ℚ)
    (slat slon : ℚ) (tbl : CityTable) (p f : ℚ) (c : Option String) :
    (match_station_to_major_city dist slat slon tbl p f c).2 =
      { tbl with distance := some (computeDistances dist slat slon tbl.rows) } := by
  rfl

/-! ## Shape lemmas for the geographic fallback -/

theorem get_geographic_region_data_source (lat long : ℚ) :
    (get_geographic_region lat long).data_source = "geographic_region" := by
  unfold get_geographic_region
  split_ifs <;> rfl

theorem get_geographic_region_city_ne (lat long : ℚ) :
    (get_geographic_region lat long).city ≠ "" := by
  unfold get_geographic_region
  split_ifs <;> dsimp only <;> decide

/-- Every resolved record carries one of the four tier tags. -/
theorem resolveLocationT_data_source (dist : ℚ → ℚ → ℚ → ℚ → ℚ)
    (nominatim : NominatimOracle) (major all : List CityRow) (p f lat long : ℚ) :
    (resolveLocationT dist nominatim major all p f lat long).1.data_source = "worldcities" ∨
    (resolveLocationT dist nominatim major all p f lat long).1.data_source = "worldcities_small" ∨
    (resolveLocationT dist nominatim major all p f lat long).1.data_source = "nominatim" ∨
    (resolveLocationT dist nominatim major all p f lat long).1.data_source = "geographic_region" := by
  unfold resolveLocationT
  rcases h1 : (match_station_to_major_city dist lat long ⟨major, none⟩ p f none).1 with _ | r1
  · rcases h2 : (match_station_to_major_city dist lat long ⟨all, none⟩ p f none).1 with _ | r2
    · by_cases hc : extract_city (nominatim lat long) ≠ ""
      · rw [if_pos hc]
        right; right; left; rfl
      · rw [if_neg hc]
        right; right; right
        exact get_geographic_region_data_source lat long
    · right; left; rfl
  · left
    exact match_station_data_source dist lat long ⟨major, none⟩ p f none r1 h1

/-! ## Closed form of the enrichment merge -/

/-- `merge_with_original` never raises: it enriches each 3-decimal-rounded
weather row from the first geocoded row carrying its key. -/
theorem merge_with_original_eq (df_weather : List WeatherRow)
    (unique_locs : List GeocodedRow) :
    merge_with_original df_weather unique_locs =
      Except.ok ((df_weather.map (fun r =>
        { r with lat := roundTo 3 r.lat, long := roundTo 3 r.long })).map (fun r =>
          (r, (unique_locs.find? (fun x =>
            decide ((x.lat, x.long) = (r.lat, r.long)))).map (fun x => x.record)))) := by
  unfold merge_with_original
  simp only []
  rw [leftJoinBy_eq_map_find _ _ _ _ (fun l _ => filter_dropDuplicatesBy_length _ _ _)]
  simp only [List.map_map, Function.comp]
  have hfind : ∀ r : WeatherRow,
      (dropDuplicatesBy (fun x : GeocodedRow => (x.lat, x.long)) unique_locs).find?
        (fun x => decide ((x.lat, x.long) = (r.lat, r.long))) =
      unique_locs.find? (fun x => decide ((x.lat, x.long) = (r.lat, r.long))) :=
    fun r => find?_dropDuplicatesBy (fun x : GeocodedRow => (x.lat, x.long))
      (r.lat, r.long) unique_locs
  simp only [hfind, List.length_map]
  rw [if_neg (by simp)]
  rfl


/-! ## Claim theorems -/

/-- Claim C1: over any input location set the resolution loop produces exactly
one record per location, in order; every record carries one of the four tier
tags (`worldcities`, `worldcities_small`, `nominatim`, `geographic_region`);
and the fourth tier is total — for every coordinate pair it returns a
populated record tagged `geographic_region` — so no location is left
unresolved and no per-location failure escapes the loop (tier-3 failures are
the oracle returning an empty response, which falls through to tier 4). -/
theorem C1_coverage (dist : ℚ → ℚ → ℚ → ℚ → ℚ) (nominatim : NominatimOracle)
    (major all : List CityRow) (p f : ℚ) (locs : List Loc) :
    (runGeocodingBatches dist nominatim major all p f locs []).results.map Prod.fst = locs ∧
    (∀ x ∈ (runGeocodingBatches dist nominatim major all p f locs []).results,
      x.2.data_source = "worldcities" ∨ x.2.data_source = "worldcities_small" ∨
        x.2.data_source = "nominatim" ∨ x.2.data_source = "geographic_region") ∧
    (∀ lat long : ℚ, (get_geographic_region lat long).city ≠ "" ∧
      (get_geographic_region lat long).data_source = "geographic_region") := by
  refine ⟨?_, ?_, ?_⟩
  · simp only [runGeocodingBatches, List.nil_append, List.map_map]
    exact (List.map_congr_left fun a _ => rfl).trans (List.map_id locs)
  · intro x hx
    simp only [runGeocodingBatches, List.nil_append, List.map_map, List.mem_map,
      Function.comp] at hx
    rcases hx with ⟨l, _, rfl⟩
    exact resolveLocationT_data_source dist nominatim major all p f l.lat l.long
  · intro lat long
    exact ⟨get_geographic_region_city_ne lat long,
      get_geographic_region_data_source lat long⟩

/-- Witness for C1 at a polar location with empty reference tables and an
always-failing external geocoder. -/
theorem C1_coverage_witness :
    (runGeocodingBatches exDist exNominatim [] [] 20 30 [⟨80, 0⟩] []).results.map Prod.fst
        = [(⟨80, 0⟩ : Loc)] ∧
    ((resolveLocation exDist exNominatim [] [] 20 30 80 0).data_source = "worldcities" ∨
      (resolveLocation exDist exNominatim [] [] 20 30 80 0).data_source = "worldcities_small" ∨
      (resolveLocation exDist exNominatim [] [] 20 30 80 0).data_source = "nominatim" ∨
      (resolveLocation exDist exNominatim [] [] 20 30 80 0).data_source = "geographic_region") ∧
    ((get_geographic_region (80 : ℚ) 0).city ≠ "" ∧
      (get_geographic_region (80 : ℚ) 0).data_source = "geographic_region") :=
  ⟨(C1_coverage exDist exNominatim [] [] 20 30 [⟨80, 0⟩]).1,
   (C1_coverage exDist exNominatim [] [] 20 30 [⟨80, 0⟩]).2.1
     ((⟨80, 0⟩ : Loc), resolveLocation exDist exNominatim [] [] 20 30 80 0) (by decide),
   (C1_coverage exDist exNominatim [] [] 20 30 [⟨80, 0⟩]).2.2 80 0⟩

/-- Claim C2 (amended): the aggregation merge first drops duplicate Location
keys from the resolution table, keeping the first occurrence; the left join
against the deduplicated table always preserves `len(M)`, so the fatal
join-integrity error is never raised and the enriched table always has
exactly `len(M)` rows. -/
theorem C2_join_safety (M : List WeatherRow) (R : List GeocodedRow) :
    (leftJoinBy (fun r : WeatherRow => (r.lat, r.long))
      (fun r : GeocodedRow => (r.lat, r.long))
      (M.map (fun r => { r with lat := roundTo 3 r.lat, long := roundTo 3 r.long }))
      (dropDuplicatesBy (fun r : GeocodedRow => (r.lat, r.long)) R)).length = M.length ∧
    (merge_with_original M R).map List.length = Except.ok M.length := by
  constructor
  · rw [leftJoinBy_eq_map_find _ _ _ _
      (fun l _ => filter_dropDuplicatesBy_length _ _ _)]
    simp
  · rw [merge_with_original_eq]
    simp [Except.map, List.length_map]

/-- Counterexample to C2 as stated: with a duplicated key in R, the left join
of M against R itself yields 2 rows for the 1-row M, so the claimed iff
demands the integrity error — yet the merge succeeds, because duplicate keys
are dropped before the join. -/
theorem C2_join_safety_counterexample :
    (leftJoinBy (fun r : WeatherRow => (r.lat, r.long))
      (fun r : GeocodedRow => (r.lat, r.long))
      ([exWeatherRow].map (fun r =>
        { r with lat := roundTo 3 r.lat, long := roundTo 3 r.long }))
      [exCkRow, exCkRow]).length = 2 ∧
    ([exWeatherRow] : List WeatherRow).length = 1 ∧
    merge_with_original [exWeatherRow] [exCkRow, exCkRow] =
      Except.ok [(exWeatherRow, some exRecord)] := by
  decide

/-- Counterexample to C3 as stated: one call on a shared table without a
distance column changes the table in place — afterwards it carries the
transient `distance` column. -/
theorem C3_no_mutation_counterexample :
    (match_station_to_major_city exDist 0 0 ⟨[exCityA], none⟩ 20 30 none).2
      ≠ (⟨[exCityA], none⟩ : CityTable) ∧
    (match_station_to_major_city exDist 0 0 ⟨[exCityA], none⟩ 20 30 none).2.distance
      = some [15] := by
  decide

/-- Claim C3 (amended): each call writes the transient `distance` column in
place onto the shared candidate table — after the call the table is exactly
the input table with `distance` overwritten by the freshly computed distances
— while the candidate rows themselves are left unchanged. -/
theorem C3_distance_column_mutation (dist : ℚ → ℚ → ℚ → ℚ → ℚ)
    (slat slon : ℚ) (tbl : CityTable) (p f : ℚ) (c : Option String) :
    (match_station_to_major_city dist slat slon tbl p f c).2 =
      { tbl with distance := some (computeDistances dist slat slon tbl.rows) } ∧
    (match_station_to_major_city dist slat slon tbl p f c).2.rows = tbl.rows :=
  ⟨match_station_table dist slat slon tbl p f c,
   by rw [match_station_table]⟩

/-- Claim C4: when a candidate inside the primary radius strictly outranks
every other in-radius candidate under (population descending, then distance
ascending), the matcher returns exactly that candidate — population outranks
distance. -/
theorem C4_population_tiebreak (dist : ℚ → ℚ → ℚ → ℚ → ℚ)
    (slat slon p f : ℚ) (tbl : CityTable) (A : CityRow × ℚ)
    (hA : A ∈ (tbl.rows.zip (computeDistances dist slat slon tbl.rows)).filter
      (fun e => decide (e.2 ≤ p)))
    (hbest : ∀ e ∈ (tbl.rows.zip (computeDistances dist slat slon tbl.rows)).filter
      (fun e => decide (e.2 ≤ p)), e ≠ A → leRank e A = false) :
    (match_station_to_major_city dist slat slon tbl p f none).1 =
      some (cityDict A) := by
  have hne : ((tbl.rows.zip (computeDistances dist slat slon tbl.rows)).filter
      (fun e => decide (e.2 ≤ p))).isEmpty = false := by
    rcases hl : (tbl.rows.zip (computeDistances dist slat slon tbl.rows)).filter
        (fun e => decide (e.2 ≤ p)) with _ | ⟨y, ys⟩
    · rw [hl] at hA
      cases hA
    · rw [hl]
      rfl
  unfold match_station_to_major_city
  simp only [strTruthy, Bool.false_eq_true, if_false, hne,
    head?_insertionSort_best _ A hA hbest, Option.map_some']

/-- Witness for C4: candidates Metropolis (population 2,000,000 at 15 km) and
Smallville (population 50,000 at 5 km), both inside the 20 km primary radius:
the matcher returns Metropolis. -/
theorem C4_population_tiebreak_witness :
    (match_station_to_major_city exDist 0 0 ⟨[exCityA, exCityB], none⟩ 20 30 none).1 =
      some (cityDict (exCityA, 15)) :=
  C4_population_tiebreak exDist 0 0 20 30 ⟨[exCityA, exCityB], none⟩ (exCityA, 15)
    (by decide) (by decide)


/-- Claim C5 (amended): the pivot aggregates by arithmetic mean within groups
keyed by the full source index — (city, country, state, suburb, date) plus
the metadata columns (city_ascii, iso2, iso3, capital, worldcities_id,
data_source) — and measurement type: a two-station group averages its two
values and a single-value group preserves its value.  The claimed coarser
grouping by (city, country, state, suburb, date) alone does not hold on the
source. -/
theorem C5_mean_aggregation (df : List EnrichedRow) (k : PivotKey)
    (t u : String) (a b c : ℚ)
    (hab : pivotGroupValues df k t = [a, b])
    (hc : pivotGroupValues df k u = [c]) :
    pivot_table_value df k t = some ((a + b) / 2) ∧
    pivot_table_value df k u = some c := by
  constructor
  · rw [pivot_table_value, hab, mean]
    norm_num [qsum_eq, qdiv_eq, mkRat_one, qadd_eq]
  · rw [pivot_table_value, hc, mean]
    norm_num [qsum_eq, qdiv_eq, mkRat_one, qadd_eq]

/-- Witness for C5 on a uniform-metadata city-date group: TMAX reported by
two stations as 10 and 20 aggregates to their mean, and SNWD reported by a
single station as 5 is preserved. -/
theorem C5_mean_aggregation_witness :
    pivot_table_value exPivotDF2 (pivotKeyOf exPivotRow1) "TMAX" = some ((10 + 20) / 2) ∧
    pivot_table_value exPivotDF2 (pivotKeyOf exPivotRow1) "SNWD" = some 5 :=
  C5_mean_aggregation exPivotDF2 (pivotKeyOf exPivotRow1) "TMAX" "SNWD" 10 20 5
    (by decide) (by decide)

/-- Counterexample to C5 as stated: two stations for the same
(city, country, state, suburb, date) whose resolutions differ in the
`data_source` metadata column fall into different pivot groups — the claimed
grouping would average TMAX 10 and 20 to 15, but the source pivot emits two
rows for this city-date, keeping 10 and 20; no group aggregates to 15. -/
theorem C5_mean_aggregation_counterexample :
    claim_pivot_value exPivotDF (claimKeyOf exPivotRow1) "TMAX" = some 15 ∧
    claimKeyOf exPivotRow1 = claimKeyOf exPivotRow2 ∧
    pivotKeyOf exPivotRow1 ≠ pivotKeyOf exPivotRow2 ∧
    pivotKeys exPivotDF = [pivotKeyOf exPivotRow1, pivotKeyOf exPivotRow2] ∧
    pivot_table_value exPivotDF (pivotKeyOf exPivotRow1) "TMAX" = some 10 ∧
    pivot_table_value exPivotDF (pivotKeyOf exPivotRow2) "TMAX" = some 20 := by
  decide

/-- Claim C6 (amended): when the TAVG column exists and the TMAX and TMIN
columns exist, every row with a missing TAVG value and both extremes present
is imputed as `TAVG = TMIN + 0.44 * (TMAX - TMIN)`, and rows already carrying
a TAVG value pass through unchanged; when the TAVG column is absent entirely
the step imputes nothing. -/
theorem C6_imputation (df : PivotDF) (h1 : df.hasTAVG = true)
    (h2 : df.hasTMAX = true) (h3 : df.hasTMIN = true) :
    (fill_missing_tavg df).rows.length = df.rows.length ∧
    (∀ r ∈ df.rows, ∀ mn mx : ℚ, r.tavg = none → r.tmin = some mn → r.tmax = some mx →
      { r with tavg := some (mn + 44/100 * (mx - mn)) } ∈ (fill_missing_tavg df).rows) ∧
    (∀ r ∈ df.rows, r.tavg ≠ none → r ∈ (fill_missing_tavg df).rows) := by
  rw [fill_missing_tavg, if_pos h1, if_pos (by rw [h2, h3]; rfl)]
  refine ⟨by simp, ?_, ?_⟩
  · intro r hr mn mx h0 hmn hmx
    have heq : (fun r : PivotRow =>
        if r.tavg.isNone then
          { r with tavg :=
              match r.tmin, r.tmax with
              | some mn, some mx =>
                some (qadd mn (qmul (Rat.divInt 44 100) (qsub mx mn)))
              | _, _ => none }
        else r) r = { r with tavg := some (mn + 44/100 * (mx - mn)) } := by
      simp only [h0, hmn, hmx, Option.isNone_none, if_true]
      rw [qadd_eq, qmul_eq, qsub_eq, Rat.divInt_eq_div]
      norm_num
    rw [← heq]
    exact List.mem_map_of_mem _ hr
  · intro r hr h0
    have heq : (fun r : PivotRow =>
        if r.tavg.isNone then
          { r with tavg :=
              match r.tmin, r.tmax with
              | some mn, some mx =>
                some (qadd mn (qmul (Rat.divInt 44 100) (qsub mx mn)))
              | _, _ => none }
        else r) r = r := by
      have : r.tavg.isNone = false := by
        rcases hv : r.tavg with _ | v
        · exact absurd hv h0
        · rfl
      simp only [this, Bool.false_eq_true, if_false]
    rw [← heq]
    exact List.mem_map_of_mem _ hr

/-- Witness for C6: with all three columns present, the row missing TAVG
(TMAX 20, TMIN 10) is imputed to `10 + 0.44 * 10` and the row already
carrying TAVG 7 is returned unchanged. -/
theorem C6_imputation_witness :
    (fill_missing_tavg exPivotDF6).rows.length = exPivotDF6.rows.length ∧
    ({ tavg := some (10 + 44/100 * (20 - 10)), tmax := some 20, tmin := some 10 } : PivotRow)
        ∈ (fill_missing_tavg exPivotDF6).rows ∧
    (⟨some 7, some 30, some 20⟩ : PivotRow) ∈ (fill_missing_tavg exPivotDF6).rows :=
  ⟨(C6_imputation exPivotDF6 rfl rfl rfl).1,
   (C6_imputation exPivotDF6 rfl rfl rfl).2.1 ⟨none, some 20, some 10⟩ (by decide) 10 20
     rfl rfl rfl,
   (C6_imputation exPivotDF6 rfl rfl rfl).2.2 ⟨some 7, some 30, some 20⟩ (by decide)
     (by decide)⟩

/-- Counterexample to C6 as stated: in a run where the TAVG column is absent
entirely (TMAX and TMIN present), the step imputes nothing — the row missing
its mean temperature stays missing instead of receiving
`TMIN + 0.44 * (TMAX - TMIN)`. -/
theorem C6_imputation_counterexample :
    exPivotDF6b.hasTAVG = false ∧ exPivotDF6b.hasTMAX = true ∧
    exPivotDF6b.hasTMIN = true ∧
    fill_missing_tavg exPivotDF6b = exPivotDF6b ∧
    (fill_missing_tavg exPivotDF6b).rows.map (fun r => r.tavg) = [none] := by
  decide

/-- Claim C7: loading returns nothing whenever no checkpoint exists, or the
stored algorithm-version tag (read with the source default `v1_nominatim`)
differs from the running `MATCHING_VERSION`; in either case the resolver
takes the fresh-run path, so a checkpoint recorded under a different matching
version is never merged into the run. -/
theorem C7_stale_checkpoint (fs : CheckpointFS)
    (h : fs.checkpoint = none ∨ ∃ pi, fs.progress = some pi ∧
      pi.matching_version.getD "v1_nominatim" ≠ MATCHING_VERSION) :
    load_geocoding_progress fs = none ∧
    ∀ (dist : ℚ → ℚ → ℚ → ℚ → ℚ) (nominatim : NominatimOracle)
      (major all : List CityRow) (p f : ℚ) (locs : List Loc),
      reverse_geocode_locations dist nominatim major all p f fs locs =
        Except.ok (runGeocodingBatches dist nominatim major all p f locs []) := by
  have hload : load_geocoding_progress fs = none := by
    unfold load_geocoding_progress
    rcases h with hc | ⟨pi, hpi, hne⟩
    · rw [hc]
    · rcases hcc : fs.checkpoint with _ | df
      · rfl
      · rw [hpi]
        dsimp only
        rw [if_pos hne]
  refine ⟨hload, ?_⟩
  intro dist nominatim major all p f locs
  unfold reverse_geocode_locations
  rw [hload]

/-- Witness for C7: a checkpoint written under `v1_nominatim` while the
current version is `v4_population_radius` is discarded and the run proceeds
fresh. -/
theorem C7_stale_checkpoint_witness :
    load_geocoding_progress exFSstale = none ∧
    reverse_geocode_locations exDist exNominatim [] [] 20 30 exFSstale [⟨80, 0⟩] =
      Except.ok (runGeocodingBatches exDist exNominatim [] [] 20 30 [⟨80, 0⟩] []) :=
  ⟨(C7_stale_checkpoint exFSstale
      (Or.inr ⟨⟨some "v1_nominatim"⟩, rfl, by decide⟩)).1,
   (C7_stale_checkpoint exFSstale
      (Or.inr ⟨⟨some "v1_nominatim"⟩, rfl, by decide⟩)).2
     exDist exNominatim [] [] 20 30 [⟨80, 0⟩]⟩


/-- Claim C8: resolving a location set each of whose members is present
(exactly once, after the 4-decimal rounding) in a validly loaded checkpoint
performs zero tier calls, writes no new checkpoint, and returns exactly the
stored checkpoint record for each location. -/
theorem C8_checkpoint_idempotence (dist : ℚ → ℚ → ℚ → ℚ → ℚ)
    (nominatim : NominatimOracle) (major all : List CityRow) (p f : ℚ)
    (fs : CheckpointFS) (ck : List GeocodedRow) (locs : List Loc)
    (row : Loc → GeocodedRow)
    (hload : load_geocoding_progress fs = some ck)
    (hrow : ∀ l ∈ locs, (roundCheckpointCoords ck).filter
      (fun r => decide ((r.lat, r.long) = (l.lat, l.long))) = [row l]) :
    reverse_geocode_locations dist nominatim major all p f fs locs =
      Except.ok ⟨locs.map (fun l => (l, (row l).record)), 0, 0⟩ := by
  have hjoin : leftJoinBy (fun l : Loc => (l.lat, l.long))
      (fun r : GeocodedRow => (r.lat, r.long)) locs (roundCheckpointCoords ck) =
      locs.map (fun l => (l, some (row l))) := by
    rw [leftJoinBy_eq_map_find _ _ _ _
      (fun l hl => by rw [hrow l hl]; exact Nat.le_refl 1)]
    refine List.map_congr_left fun l hl => ?_
    rw [find?_eq_head?_filter, hrow l hl]
    rfl
  have hfilter : (locs.map (fun l => (l, some (row l)))).filter
      (fun x => x.2.isNone) = [] := by
    rw [List.filter_eq_nil_iff]
    intro x hx
    rcases List.mem_map.mp hx with ⟨l, _, rfl⟩
    simp
  have halready : ∀ ls : List Loc, (ls.map (fun l => (l, some (row l)))).filterMap
      (fun x => x.2.map (fun r => (x.1, r.record))) =
      ls.map (fun l => (l, (row l).record)) := by
    intro ls
    induction ls with
    | nil => rfl
    | cons a t ih => simp [ih]
  unfold reverse_geocode_locations
  rw [hload]
  dsimp only
  rw [hjoin, hfilter, halready]
  simp

/-- Witness for C8: a single location already stored in a current-version
checkpoint is answered from the checkpoint with zero tier calls and zero
saves. -/
theorem C8_checkpoint_idempotence_witness :
    reverse_geocode_locations exDist exNominatim [] [] 20 30 exFS
        [⟨Rat.divInt 3 2, Rat.divInt 5 2⟩] =
      Except.ok ⟨[(⟨Rat.divInt 3 2, Rat.divInt 5 2⟩, exRecord)], 0, 0⟩ :=
  C8_checkpoint_idempotence exDist exNominatim [] [] 20 30 exFS [exCkRow]
    [⟨Rat.divInt 3 2, Rat.divInt 5 2⟩] (fun _ => exCkRow) (by decide) (by decide)

/-- Claim C9 (amended): the unique-location extraction and the measurement
enrichment merge key on 3-decimal-rounded coordinates — every extracted
location is a 3-decimal fixpoint, and pre-rounding the measurement table to 3
decimals leaves the enrichment merge unchanged — but the checkpoint resume
merge rounds its checkpoint side to 4 decimals, so its join keys are
4-decimal (not 3-decimal) coordinates. -/
theorem C9_rounding :
    (∀ (df : List WeatherRow) (l : Loc), l ∈ get_unique_locations df →
      roundTo 3 l.lat = l.lat ∧ roundTo 3 l.long = l.long) ∧
    (∀ (M : List WeatherRow) (R : List GeocodedRow),
      merge_with_original M R = merge_with_original
        (M.map (fun r => { r with lat := roundTo 3 r.lat, long := roundTo 3 r.long })) R) ∧
    (∀ (ck : List GeocodedRow) (r : GeocodedRow), r ∈ roundCheckpointCoords ck →
      roundTo 4 r.lat = r.lat ∧ roundTo 4 r.long = r.long) := by
  refine ⟨?_, ?_, ?_⟩
  · intro df l hl
    unfold get_unique_locations at hl
    have hmem := (mem_dropDuplicatesByAux (fun l : Loc => (l.lat, l.long)) _ [] l hl).1
    rcases List.mem_map.mp hmem with ⟨l0, _, rfl⟩
    exact ⟨roundTo_roundTo 3 l0.lat, roundTo_roundTo 3 l0.long⟩
  · intro M R
    have hmap : (M.map (fun r : WeatherRow =>
        { r with lat := roundTo 3 r.lat, long := roundTo 3 r.long })).map
        (fun r : WeatherRow =>
          { r with lat := roundTo 3 r.lat, long := roundTo 3 r.long }) =
        M.map (fun r : WeatherRow =>
          { r with lat := roundTo 3 r.lat, long := roundTo 3 r.long }) := by
      rw [List.map_map]
      refine List.map_congr_left fun r _ => ?_
      cases r
      simp [roundTo_roundTo]
    rw [merge_with_original_eq, merge_with_original_eq, hmap]
  · intro ck r hr
    rcases List.mem_map.mp hr with ⟨r0, _, rfl⟩
    exact ⟨roundTo_roundTo 4 r0.lat, roundTo_roundTo 4 r0.long⟩

/-- Witness for C9: a 3-decimal coordinate survives extraction as its own
key, pre-rounding the measurement table is a no-op for the merge, and the
resume-merge side is a 4-decimal fixpoint. -/
theorem C9_rounding_witness :
    (roundTo 3 exLoc9.lat = exLoc9.lat ∧ roundTo 3 exLoc9.long = exLoc9.long) ∧
    (merge_with_original [exWeatherRow] [exCkRow] = merge_with_original
      ([exWeatherRow].map (fun r =>
        { r with lat := roundTo 3 r.lat, long := roundTo 3 r.long })) [exCkRow]) ∧
    (roundTo 4 exCkRow.lat = exCkRow.lat ∧ roundTo 4 exCkRow.long = exCkRow.long) :=
  ⟨C9_rounding.1 [⟨"S1", "2020-01-01", "TMAX", Rat.divInt 1234 1000, 0, "N", 1⟩]
     exLoc9 (by decide),
   C9_rounding.2.1 [exWeatherRow] [exCkRow],
   C9_rounding.2.2 [exCkRow] exCkRow (by decide)⟩

/-- Counterexample to C9 as stated: the checkpoint coordinate 1.2344 and the
requested location 1.234 round to the same 3-decimal pair, yet the resume
merge — which rounds the checkpoint side to 4 decimals, not 3 — fails to
match them and leaves the location unresolved: the 3-decimal pair is not the
join key of that merge. -/
theorem C9_rounding_counterexample :
    roundTo 3 exCkRow4.lat = exLoc9.lat ∧ exCkRow4.long = exLoc9.long ∧
    roundCheckpointCoords [exCkRow4] = [exCkRow4] ∧
    leftJoinBy (fun l : Loc => (l.lat, l.long))
      (fun r : GeocodedRow => (r.lat, r.long))
      [exLoc9] (roundCheckpointCoords [exCkRow4]) = [(exLoc9, none)] := by
  decide

/-- Claim C10: duplicate Location keys in the resolution table never make the
enrichment merge raise: all but the first occurrence of each key are dropped
before the join, each measurement row is enriched from the first matching
resolution row, and later duplicates never influence the output. -/
theorem C10_duplicate_keys_dropped (M : List WeatherRow) (R : List GeocodedRow) :
    merge_with_original M R =
      Except.ok ((M.map (fun r =>
        { r with lat := roundTo 3 r.lat, long := roundTo 3 r.long })).map (fun r =>
          (r, (R.find? (fun x =>
            decide ((x.lat, x.long) = (r.lat, r.long)))).map (fun x => x.record)))) :=
  merge_with_original_eq M R

end Vaycay
